import Mathlib

/-!
Verification development for the `ate` meal-bot repository.

The definitions below are a shallow embedding of the Rust sources:
`src/meal.rs`, `src/button.rs`, `src/keyboard.rs`, `src/plan.rs`,
`src/poll.rs`, `src/command.rs` (the current module revision) and
`src/main.rs` (the earlier self-contained revision, embedded in
namespace `V0`).  Shared mutable `HashMap` state is modelled by
association lists with key-based insert/remove/lookup, which agree
with `HashMap` up to iteration order.  Machine integers (`u8`, `i32`,
`u32`, `usize`) are modelled as `Nat`/`Int`, with an explicit `% 256`
wherever the code casts to `u8`.  Random id generation (`nanoid!()`,
the `get_id()` counter) is modelled by an explicit id-supply function
`gen : Nat → _` passed to each operation; the crate's floating-point
weighted sampler is modelled over `ℚ` with the random spin as an
explicit parameter.  A Rust `panic!` (e.g. `Option::unwrap` on `None`,
out-of-bounds indexing) is modelled by an `Option` result of `none`.
-/

set_option autoImplicit false

namespace Ate

/-! ## Association-list model of the shared `HashMap` registries -/

/-- Lookup by key, model of `HashMap::get`. -/
def lookupA {κ α : Type} [BEq κ] (k : κ) : List (κ × α) → Option α
  | [] => none
  | p :: ps => if p.1 == k then some p.2 else lookupA k ps

/-- Removal by key, model of `HashMap::remove`. -/
def removeA {κ α : Type} [BEq κ] (k : κ) (m : List (κ × α)) : List (κ × α) :=
  m.filter (fun p => !(p.1 == k))

/-- Insert-or-replace by key, model of `HashMap::insert`. -/
def insertA {κ α : Type} [BEq κ] (k : κ) (v : α) (m : List (κ × α)) : List (κ × α) :=
  (k, v) :: removeA k m

/-- In-place update by key, model of the store's `modify(id, f)`:
returns the modified value (the `Ok` payload) when the key is present,
`none` (the `Err` case) when it is absent. -/
def modifyA {κ α : Type} [BEq κ] (k : κ) (f : α → α) (m : List (κ × α)) :
    Option α × List (κ × α) :=
  match lookupA k m with
  | none => (none, m)
  | some v => (some (f v), insertA k (f v) m)

section MapLemmas

set_option linter.unusedSectionVars false

variable {κ α : Type} [BEq κ] [LawfulBEq κ]

@[simp] theorem lookupA_nil (k : κ) : lookupA (α := α) k [] = none := rfl

@[simp] theorem lookupA_insertA_self (k : κ) (v : α) (m : List (κ × α)) :
    lookupA k (insertA k v m) = some v := by
  simp [insertA, lookupA]

@[simp] theorem lookupA_removeA_self (k : κ) (m : List (κ × α)) :
    lookupA k (removeA k m) = none := by
  induction m with
  | nil => simp [removeA]
  | cons p ps ih =>
    by_cases hpk : p.1 = k
    · have hb : (p.1 == k) = true := by simp [hpk]
      simpa [removeA, List.filter_cons, hb] using ih
    · have hb : (p.1 == k) = false := by simp [hpk]
      simpa [removeA, List.filter_cons, lookupA, hb] using ih

theorem lookupA_removeA_ne (k k' : κ) (m : List (κ × α)) (h : k' ≠ k) :
    lookupA k (removeA k' m) = lookupA k m := by
  induction m with
  | nil => simp [removeA]
  | cons p ps ih =>
    by_cases hpk : p.1 = k'
    · have hk : ¬ p.1 = k := fun hc => h (hpk ▸ hc)
      have hb : (p.1 == k') = true := by simp [hpk]
      have hb2 : (p.1 == k) = false := by simp [hk]
      simpa [removeA, List.filter_cons, lookupA, hb, hb2] using ih
    · have hb : (p.1 == k') = false := by simp [hpk]
      by_cases hk : p.1 = k
      · have hb2 : (p.1 == k) = true := by simp [hk]
        simp [removeA, List.filter_cons, lookupA, hb, hb2]
      · have hb2 : (p.1 == k) = false := by simp [hk]
        simpa [removeA, List.filter_cons, lookupA, hb, hb2] using ih

theorem lookupA_insertA_ne (k k' : κ) (v : α) (m : List (κ × α)) (h : k' ≠ k) :
    lookupA k (insertA k' v m) = lookupA k m := by
  have hne : ¬ k' = k := h
  simp [insertA, lookupA, hne, lookupA_removeA_ne _ _ _ h]

theorem modifyA_of_lookup_some (k : κ) (f : α → α) (m : List (κ × α)) (v : α)
    (h : lookupA k m = some v) :
    modifyA k f m = (some (f v), insertA k (f v) m) := by
  simp [modifyA, h]

theorem modifyA_of_lookup_none (k : κ) (f : α → α) (m : List (κ × α))
    (h : lookupA k m = none) :
    modifyA k f m = (none, m) := by
  simp [modifyA, h]

end MapLemmas

/-! ## Data model (src/meal.rs, src/command.rs, src/button.rs, src/keyboard.rs,
src/plan.rs, src/poll.rs) -/

/-- Meal record, from `src/meal.rs` (`PhotoSize` values are represented by
their `file_id` strings). -/
structure Meal where
  name : String
  rating : Option Nat
  id : String
  url : Option String
  tags : List String
  photos : List String
  chat_id : Int
  user_id : Int
  deriving DecidableEq, Repr

/-- Meal::rate from `src/meal.rs` (stores the rating as given, no clamping). -/
def Meal.rate (m : Meal) (rating : Option Nat) : Meal :=
  { m with rating := rating }

/-- Command enum from `src/command.rs` (payloads only; text parsing is out of
scope, the dispatcher receives the parsed variant). -/
inductive Command where
  | help
  | newMeal (meal_name : String)
  | new (meal_name : String) (rating : Option Nat) (tags : Option (List String))
      (url : Option String)
  | plan (days : Option Nat)
  | get (meal_name : String)
  | remove (meal_name : String)
  | list
  | op (username password : String)
  | rename (meal_name new_name : String)
  | rate (meal_name : String) (rating : Nat)
  | tag (meal_name : String) (tags : List String)
  | tagRemove (meal_name : String) (tags : List String)
  | ref (meal_name new_reference : String)
  | version
  deriving DecidableEq, Repr

/-- ButtonKind enum from `src/button.rs`. -/
inductive ButtonKind where
  | displayPlanMeal (meal_id plan_id : String)
  | displayListMeal (meal_id : String)
  | showList
  | showPlan
  | rerollPlan
  | clearVotes
  | removePlanPoll (plan_id : String)
  | saveMeal (meal_id : String)
  | rateMeal (meal_id : String) (rating : Nat)
  | removeMeal (meal_id : String)
  | deleteMeal (meal_id : String)
  | pollRating (meal_id : String)
  | savePollRating (meal_id poll_id : String)
  | cancelPollRating (poll_id : String)
  | commandButton (command : Command)
  | pinMessage
  | deleteMessage
  deriving DecidableEq, Repr

/-- Button record from `src/button.rs`; `Button::new` draws a fresh `nanoid`
id, modelled by the explicit `id` argument, and leaves `keyboard_id` unset. -/
structure Button where
  text : String
  id : String
  keyboard_id : Option String
  kind : ButtonKind
  deriving DecidableEq, Repr

/-- Button::new from `src/button.rs`. -/
def Button.new (id text : String) (kind : ButtonKind) : Button :=
  { id := id, text := text, keyboard_id := none, kind := kind }

/-- Keyboard record from `src/keyboard.rs`. -/
structure Keyboard where
  id : String
  buttons : List (List Button)
  chat_id : Int
  deriving DecidableEq, Repr

/-- Keyboard::new from `src/keyboard.rs` (fresh `nanoid` id passed in). -/
def Keyboard.new (id : String) (chat_id : Int) : Keyboard :=
  { chat_id := chat_id, id := id, buttons := [] }

/-- Keyboard::buttons from `src/keyboard.rs`: stores the rows, stamping every
button's `keyboard_id` with the keyboard's own id. -/
def Keyboard.withButtons (kb : Keyboard) (buttons : List (List Button)) : Keyboard :=
  { kb with
    buttons := buttons.map (fun row => row.map (fun b => { b with keyboard_id := some kb.id })) }

/-- Keyboard::get_btn from `src/keyboard.rs`: first button with a matching id
in the flattened rows. -/
def Keyboard.get_btn (kb : Keyboard) (button_id : String) : Option Button :=
  kb.buttons.flatten.find? (fun b => b.id == button_id)

/-- Plan record from `src/plan.rs`. -/
structure Plan where
  meals : List Meal
  days : Nat
  chat_id : Int
  id : String
  deriving DecidableEq, Repr

/-- PollKind from `src/poll.rs`. -/
inductive PollKind where
  | meal (meal_id : String) (reply_message_id : Int)
  | plan (plan_id : String)
  deriving DecidableEq, Repr

/-- Poll record from `src/poll.rs`. -/
structure Poll where
  id : String
  poll_id : String
  chat_id : Int
  message_id : Int
  poll_kind : PollKind
  is_canceled : Bool
  keyboard_id : String
  deriving DecidableEq, Repr

/-- Poll::new from `src/poll.rs` (fresh `nanoid` id passed in;
`is_canceled` starts `false`). -/
def Poll.new (id poll_id : String) (chat_id : Int) (message_id : Int)
    (poll_kind : PollKind) (keyboard_id : String) : Poll :=
  { id := id, poll_id := poll_id, chat_id := chat_id, message_id := message_id,
    poll_kind := poll_kind, keyboard_id := keyboard_id, is_canceled := false }

/-- Poll::cancel from `src/poll.rs`. -/
def Poll.cancel (p : Poll) : Poll :=
  { p with is_canceled := true }

/-- PollBuildStepOne from `src/poll.rs`: a poll awaiting its external poll id
and anchor message id. -/
structure PollBuildStepOne where
  id : String
  chat_id : Int
  poll_kind : PollKind
  is_canceled : Bool
  keyboard_id : String
  deriving DecidableEq, Repr

/-- Poll::build from `src/poll.rs`. -/
def Poll.build (id : String) (chat_id : Int) (poll_kind : PollKind)
    (keyboard_id : String) : PollBuildStepOne :=
  { id := id, chat_id := chat_id, poll_kind := poll_kind,
    keyboard_id := keyboard_id, is_canceled := false }

/-- PollBuildStepOne::finalize from `src/poll.rs`. -/
def PollBuildStepOne.finalize (b : PollBuildStepOne) (poll_id : String)
    (message_id : Int) : Poll :=
  { id := b.id, poll_id := poll_id, chat_id := b.chat_id, message_id := message_id,
    poll_kind := b.poll_kind, keyboard_id := b.keyboard_id, is_canceled := false }

/-! ## Outbound request batch (src/request.rs)

RequestKind items are modelled by the data the core attaches to them; the
teloxide transport payloads themselves are out of scope. -/

/-- Pending outbound effect, from the `RequestKind` enum in `src/request.rs`.
Keyboard markup is represented by the keyboard's button rows. -/
inductive Req where
  | message (chat : Int) (text : String)
  | editMessage (chat msg : Int) (text : String) (markup : Option (List (List Button)))
  | editReplyMarkup (chat msg : Int) (markup : List (List Button))
  | deleteMessage (chat msg : Int)
  | stopPoll (chat msg : Int) (cleanup : Option Poll)
  | sendPoll (chat : Int) (question : String) (answers : List String)
      (builder : PollBuildStepOne)
  | callbackAnswer (text : Option String)
  | pin (chat msg : Int)
  deriving DecidableEq, Repr

/-! ## Shared mutable state -/

/-- Modelled from the spec: the shared Registry state guarded by the
process-wide lock (§3/§5 of the spec).  The current revision of
`src/state.rs` holding the generic id-keyed store (`add`/`get`/`remove`/
`modify`/`find`/`all_chat` used by `src/poll.rs`, `src/button.rs` and
`src/command.rs`) is not among the sources; per the spec the Registry
exclusively owns Keyboards and Polls, and Meals/Plans are stored by id in
the same shared state, so each kind is one id-keyed map. -/
structure TgState where
  keyboards : List (String × Keyboard)
  meals : List (String × Meal)
  polls : List (String × Poll)
  plans : List (String × Plan)
  deriving DecidableEq, Repr

/-- Keyboard::save from `src/keyboard.rs`: persists the keyboard only when it
holds at least one button. -/
def Keyboard.save (kb : Keyboard) (st : TgState) : TgState :=
  if kb.buttons.flatten.length > 0 then
    { st with keyboards := insertA kb.id kb st.keyboards }
  else st

/-- HasId::save for polls, from `src/poll.rs` (adds the poll to the store). -/
def Poll.save (p : Poll) (st : TgState) : TgState :=
  { st with polls := insertA p.id p st.polls }

/-! ## Display formatting (fmt::Display for Meal, src/meal.rs) -/

/-- Model of Rust `str::to_uppercase` (agrees on the ASCII names used here). -/
def strUpper (s : String) : String := s.map Char.toUpper

/-- Model of `"⭐".repeat(n)`. -/
def starsRepeat (n : Nat) : String := String.join (List.replicate n "⭐")

/-- fmt::Display for Meal from `src/meal.rs`: uppercase name, star row when
rated, tag row when tagged, url line when present. -/
def mealDisplay (m : Meal) : String :=
  strUpper m.name
    ++ (match m.rating with
        | some r => "\n" ++ starsRepeat r
        | none => "")
    ++ (if m.tags.length > 0 then
          "\n\n" ++ m.tags.foldl (fun acc t => acc ++ " | " ++ t) "" ++ " |"
        else "")
    ++ (match m.url with
        | some u => "\n\n(" ++ u ++ ")"
        | none => "")

/-! ## Button row builders (src/button.rs) -/

/-- rate_meal_button_row from `src/button.rs`: five star/dot buttons for
ratings 1..5; fresh button ids `gen k .. gen (k+4)`. -/
def rateMealButtonRow (gen : Nat → String) (k : Nat) (rating : Nat)
    (meal_id : String) : List Button :=
  (List.range 5).map fun j =>
    Button.new (gen (k + j)) (if j + 1 ≤ rating then "⭐" else "⚫")
      (.rateMeal meal_id (j + 1))

/-- save_meal_button_row from `src/button.rs`: `OK` (dismiss) and `REMOVE`. -/
def saveMealButtonRow (gen : Nat → String) (k : Nat) (meal_id : String) :
    List Button :=
  [Button.new (gen k) (strUpper "Ok") .deleteMessage,
   Button.new (gen (k + 1)) (strUpper "Remove") (.removeMeal meal_id)]

/-- save_poll_button_row from `src/button.rs`: `SAVE` and `CANCEL` for an
in-flight rating poll. -/
def savePollButtonRow (gen : Nat → String) (k : Nat) (meal_id poll_id : String) :
    List Button :=
  [Button.new (gen k) (strUpper "Save") (.savePollRating meal_id poll_id),
   Button.new (gen (k + 1)) (strUpper "Cancel") (.cancelPollRating poll_id)]

/-! ## Poll vote aggregation and the poll state machine (src/poll.rs) -/

/-- Update delivered by the external poll transport: open/closed flag, total
voter count, and the per-option voter counts in option order. -/
structure PollUpdate where
  is_closed : Bool
  total_voter_count : Nat
  options : List Nat
  deriving DecidableEq, Repr

/-- Model of `Iterator::enumerate` starting at index `k`. -/
def enumFromN {α : Type} : Nat → List α → List (Nat × α)
  | _, [] => []
  | k, v :: vs => (k, v) :: enumFromN (k + 1) vs

/-- The `votes` vector of `Poll::handle_votes`: each option's 1-based index
paired with its voter count. -/
def pollVotes (options : List Nat) : List (Nat × Nat) :=
  (enumFromN 0 options).map fun p => (p.1 + 1, p.2)

/-- The fold of `Poll::handle_votes` computing `Σ (option_index+1) * voter_count`. -/
def weightedSum (options : List Nat) : Nat :=
  (pollVotes options).foldl (fun sum vote => sum + vote.1 * vote.2) 0

/-- Poll::handle_votes from `src/poll.rs`, lines 110-265.  `gen` supplies the
fresh `nanoid` ids in call order.  Returns the new shared state and the
emitted request batch. -/
def handleVotes (gen : Nat → String) (self : Poll) (st : TgState)
    (upd : PollUpdate) : TgState × List Req :=
  match self.poll_kind with
  | .plan _ => (st, [])
  | .meal meal_id reply_message_id =>
    match lookupA meal_id st.meals with
    | none =>
      (st, [.stopPoll self.chat_id self.message_id (some self)])
    | some meal =>
      let total := upd.total_voter_count
      if upd.is_closed then
        let st1 := { st with polls := removeA self.id st.polls }
        if total > 0 ∧ self.is_canceled = false then
          let avg := weightedSum upd.options / total
          let st2 := { st1 with
            meals := (modifyA meal_id
              (fun m => m.rate (some
                (((avg % 256) + (m.rating.getD (avg % 256))) % 256 / 2)))
              st1.meals).2 }
          (st2, [.editMessage self.chat_id reply_message_id
            (mealDisplay meal ++ "\n\nSaved!") none])
        else
          let kb := (Keyboard.new (gen 0) self.chat_id).withButtons
            [[Button.new (gen 1) "Rate with Poll" (.pollRating meal.id)],
             saveMealButtonRow gen 2 meal.id]
          let st2 := kb.save st1
          (st2, [.editMessage self.chat_id reply_message_id
              (mealDisplay meal ++ "\n\nPoll Canceled!") (some kb.buttons),
            .deleteMessage self.chat_id self.message_id])
      else
        let st1 := { st with keyboards := removeA self.keyboard_id st.keyboards }
        if total > 0 then
          let kb := (Keyboard.new (gen 0) self.chat_id).withButtons
            [savePollButtonRow gen 1 meal.id self.id]
          let st2 := kb.save st1
          let new_poll := Poll.new (gen 3) self.poll_id self.chat_id
            self.message_id self.poll_kind kb.id
          let st3 := new_poll.save st2
          (st3, [.editReplyMarkup self.chat_id self.message_id kb.buttons])
        else
          let kb := (Keyboard.new (gen 0) self.chat_id).withButtons
            [[Button.new (gen 1) (strUpper "Cancel Vote")
              (.cancelPollRating self.id)]]
          let st2 := kb.save st1
          let new_poll := Poll.new (gen 2) self.poll_id self.chat_id
            self.message_id self.poll_kind kb.id
          let st3 := new_poll.save st2
          (st3, [.editReplyMarkup self.chat_id self.message_id kb.buttons])

/-! ## Weighted sampler (the `random_choice` crate, v0.3)

`Plan::gen` delegates to `random_choice().random_choice_f64(&meals, &weights,
amount)`, the crate's stochastic universal sampling: it computes
`sum = Σ weights`, `spoke_gap = sum / n`, draws one spin in
`[0, spoke_gap)`, and walks `n` evenly spaced spokes over the cumulative
weights, pushing `samples[i]` for each spoke (the same index can serve
several spokes).  The floating-point arithmetic is modelled exactly over
`ℚ`, with the random factor `spin01 ∈ [0,1)` as an explicit parameter.
An out-of-bounds weight access (a `panic!`) is modelled by `none`. -/

/-- The crate's inner `while accumulated_weights < current_spoke` loop:
advances the index over the remaining weights; returns the chosen index, the
accumulator, and the unconsumed weights, or `none` on the (panicking)
out-of-bounds access. -/
def susLoop : List ℚ → Nat → ℚ → ℚ → Option (Nat × ℚ × List ℚ)
  | [], i, acc, spoke => if acc < spoke then none else some (i, acc, [])
  | w :: rest, i, acc, spoke =>
    if acc < spoke then susLoop rest (i + 1) (acc + w) spoke
    else some (i, acc, w :: rest)

/-- The crate's outer `for _ in 0..n` loop: one chosen index per spoke,
moving the spoke by `gap` each round. -/
def susMany : Nat → List ℚ → Nat → ℚ → ℚ → ℚ → Option (List Nat)
  | 0, _, _, _, _, _ => some []
  | n + 1, rest, i, acc, spoke, gap =>
    match susLoop rest i acc spoke with
    | none => none
    | some (j, acc2, rest2) =>
      (susMany n rest2 j acc2 (spoke + gap) gap).map (fun l => j :: l)

/-- random_choice_f64 of the `random_choice` crate, returning the list of
chosen indices: empty when `weights` is empty or `n = 0`, otherwise `n`
spokes over the cumulative weights starting at `spin01 * spoke_gap`. -/
def randomChoiceIndices (weights : List ℚ) (n : Nat) (spin01 : ℚ) :
    Option (List Nat) :=
  match weights with
  | [] => some []
  | w0 :: ws =>
    if n = 0 then some []
    else
      let sum := (w0 :: ws).sum
      let gap := sum / n
      susMany n ws 0 w0 (spin01 * gap) gap

/-! ## Plans (src/plan.rs) -/

/-- Plan::new from `src/plan.rs`: `days` is the length of the given meal
list. -/
def Plan.new (id : String) (chat_id : Int) (meals : List Meal) : Plan :=
  { chat_id := chat_id, meals := meals, days := meals.length, id := id }

/-- Placeholder for the (unreachable) out-of-range `samples[i]` access. -/
def defaultMeal : Meal :=
  { name := "", rating := none, id := "", url := none, tags := [], photos := [],
    chat_id := 0, user_id := 0 }

/-- Plan::gen from `src/plan.rs`: weight each meal by `rating` (or `1` when
unrated), draw `amount` samples with the crate sampler, and store the drawn
meals with `days` equal to the number actually drawn. -/
def Plan.gen (id : String) (chat_id : Int) (meals : List Meal) (amount : Nat)
    (spin01 : ℚ) : Option Plan :=
  let weights : List ℚ := meals.map (fun meal => ((meal.rating.getD 1 : Nat) : ℚ))
  (randomChoiceIndices weights amount spin01).map fun idxs =>
    let meal_plan := idxs.map (fun i => meals.getD i defaultMeal)
    { chat_id := chat_id, meals := meal_plan, days := meal_plan.length, id := id }

/-- Plan::buttons from `src/plan.rs`: meal-info buttons in rows of four;
fresh button ids `gen k, gen (k+1), ...` in meal order. -/
def Plan.buttonsG (gen : Nat → String) (k : Nat) (p : Plan) :
    List (List Button) :=
  (List.toChunks 4 (enumFromN k p.meals)).map fun row =>
    row.map fun q => Button.new (gen q.1) q.2.name (.displayPlanMeal q.2.id p.id)

/-- Plan::answers from `src/plan.rs`: one poll answer per meal,
`"{NAME} ({rating}⭐)"` with unrated meals shown as rating 1. -/
def Plan.answers (p : Plan) : List String :=
  p.meals.map fun meal =>
    strUpper meal.name ++ " (" ++ toString (meal.rating.getD 1) ++ "⭐)"

/-- poll_plan_buttons from `src/button.rs`: the plan's meal-info rows plus a
`Reroll`/`Clear`/`Exit` row. -/
def pollPlanButtons (gen : Nat → String) (k : Nat) (p : Plan) :
    List (List Button) :=
  p.buttonsG gen k ++
    [[Button.new (gen (k + p.meals.length)) "Reroll" .rerollPlan,
      Button.new (gen (k + p.meals.length + 1)) "Clear" .clearVotes,
      Button.new (gen (k + p.meals.length + 2)) "Exit" (.removePlanPoll p.id)]]

/-! ## The Plan command branch (src/command.rs, lines 313-363) -/

/-- Modelled from the spec: `all_chat` of the missing current `src/state.rs`
revision returns the stored values belonging to the chat (map iteration
order is modelled by list order). -/
def allChatMeals (st : TgState) (chat : Int) : List Meal :=
  (st.meals.map (·.2)).filter (fun meal => meal.chat_id == chat)

/-- Modelled from the spec: `all_chat` over the plan map. -/
def allChatPlans (st : TgState) (chat : Int) : List Plan :=
  (st.plans.map (·.2)).filter (fun p => p.chat_id == chat)

/-- Modelled from the spec: `find(chat_id, pred)` of the missing current
`src/state.rs` revision returns the first stored plan of the chat matching
the predicate; the Plan branch passes `plan.chat_id == cx.chat_id()`. -/
def findChatPlan (st : TgState) (chat : Int) : Option Plan :=
  ((st.plans.map (·.2)).filter (fun p => p.chat_id == chat)).find?
    (fun p => p.chat_id == chat)

/-- Modelled from the spec: the default `HasId::save` of the missing current
`src/state.rs` persists the value into its id-keyed map, as the `HasId`
override for polls in `src/poll.rs` and the keyboard/meal `save` methods do. -/
def Plan.save (p : Plan) (st : TgState) : TgState :=
  { st with plans := insertA p.id p st.plans }

/-- The `Command::Plan(days_opt)` arm of `Command::run` from
`src/command.rs`, lines 313-363: build (or fetch) the plan, `save` it, then
range-check `meal_plan.days`, and only inside the accepted branch remove old
plans and send the plan poll.  `gen` supplies fresh `nanoid` ids; `spin01`
is the sampler's random spin.  `none` models a sampler panic. -/
def Command.runPlan (gen : Nat → String) (spin01 : ℚ) (st : TgState)
    (chat : Int) (days_opt : Option Nat) : Option (TgState × List Req) :=
  let meals := allChatMeals st chat
  let plans := allChatPlans st chat
  let mealPlanOpt :=
    match days_opt with
    | some days => Plan.gen (gen 0) chat meals days spin01
    | none => some ((findChatPlan st chat).getD (Plan.new (gen 0) chat []))
  mealPlanOpt.map fun meal_plan =>
    let st1 := meal_plan.save st
    if meal_plan.days < 2 then
      (st1, [.message chat "Plan for at least 2 days!"])
    else if meal_plan.days > 10 then
      (st1, [.message chat "Can only plan for a maximum of 10 days!"])
    else
      let st2 := plans.foldl (fun s p => { s with plans := removeA p.id s.plans }) st1
      let kb0 := Keyboard.new (gen 1) chat
      let poll_builder := Poll.build (gen 2) chat (.plan meal_plan.id) kb0.id
      let kb := kb0.withButtons (pollPlanButtons gen 3 meal_plan)
      let st3 := kb.save st2
      (st3, [.sendPoll chat "Plan:\n(Click to vote or use buttons to get meal info)"
        meal_plan.answers poll_builder])

/-! ## Dispatcher arms cited by the claims (src/button.rs, ButtonKind::run)

Each arm is embedded as its own function over the shared state and the
callback context (`ctxChat`/`ctxMsg`: chat and id of the message the click
came from; `chat`: the `chat_id` local of `ButtonKind::run`). -/

/-- The `ButtonKind::DeleteMeal` arm of `ButtonKind::run`, `src/button.rs`
lines 174-177: remove by id, or report `No meal to delete found!` via
`edit_callback_text`. -/
def runDeleteMeal (st : TgState) (ctxChat ctxMsg : Int) (meal_id : String) :
    TgState × List Req :=
  match lookupA meal_id st.meals with
  | some meal =>
    ({ st with meals := removeA meal_id st.meals },
     [.editMessage ctxChat ctxMsg (mealDisplay meal ++ "\n\nRemoved!") none])
  | none =>
    (st, [.editMessage ctxChat ctxMsg "No meal to delete found!" none])

/-- The `ButtonKind::RateMeal` arm of `ButtonKind::run`, `src/button.rs`
lines 153-173: `modify` the meal's rating (falling to the
`No meal with to rate!` text when the id is absent), and re-render the
rate/save keyboard. -/
def runRateMeal (gen : Nat → String) (st : TgState) (chat ctxChat ctxMsg : Int)
    (meal_id : String) (rating : Nat) : TgState × List Req :=
  let res := modifyA meal_id (fun m => m.rate (some rating)) st.meals
  let st1 := { st with meals := res.2 }
  let kb := (Keyboard.new (gen 0) chat).withButtons
    [rateMealButtonRow gen 1 rating meal_id, saveMealButtonRow gen 6 meal_id]
  let st2 := kb.save st1
  (st2, [.editMessage ctxChat ctxMsg
    (match res.1 with
     | some meal => mealDisplay meal ++ "\n\nChange rating or save your meal!"
     | none => "No meal with to rate!")
    (some kb.buttons)])

/-- The `ButtonKind::CancelPollRating` arm of `ButtonKind::run`,
`src/button.rs` lines 481-496: `modify` the poll to set `is_canceled`, and
on success emit a `StopPoll` carrying the canceled record; on a missing id
do nothing. -/
def runCancelPollRating (st : TgState) (poll_id : String) : TgState × List Req :=
  match modifyA poll_id Poll.cancel st.polls with
  | (some poll, polls2) =>
    ({ st with polls := polls2 },
     [.stopPoll poll.chat_id poll.message_id (some poll)])
  | (none, _) => (st, [])

/-! ## Callback payload encoding (src/button.rs, Button::callback_button)

Payload strings are manipulated as `List Char` (the `String.data`
representation), matching byte-for-byte what Rust's `format!` builds. -/

/-- Button::callback_button from `src/button.rs` lines 36-45: payload
`"{keyboard_id}.{button_id}"` when a keyboard id exists, else
`".{button_id}"`. -/
def Button.callbackData (b : Button) : List Char :=
  match b.keyboard_id with
  | some kid => kid.data ++ '.' :: b.id.data
  | none => '.' :: b.id.data

/-- Model of Rust `str::split('.')` (and of Lean's `String.splitOn "."`):
maximal '.'-free segments, with empty segments kept. -/
def splitDot : List Char → List (List Char)
  | [] => [[]]
  | c :: cs =>
    if c = '.' then [] :: splitDot cs
    else
      match splitDot cs with
      | [] => [[c]]
      | p :: ps => (c :: p) :: ps

/-- Modelled from the spec: the id alphabet of the external `nanoid` crate
(`nanoid!()` with the default URL-safe alphabet); the spec's §4.1/§6 "short
random tokens" whose separator `.` "must not appear inside either id". -/
def nanoidAlphabet : List Char :=
  "_-0123456789abcdefghijklmnopqrstuvwxyzABCDEFGHIJKLMNOPQRSTUVWXYZ".data

/-- Membership of every character of a string in the nanoid alphabet. -/
def nanoidOk (s : String) : Bool :=
  s.data.all (fun c => nanoidAlphabet.contains c)

/-! ## The earlier self-contained revision (src/main.rs), namespace V0

`src/main.rs` in the sources is the earlier standalone revision of the bot:
numeric `get_id()` correlation ids, its own `Meal`/`Button`/`Keyboard`
types, and a `handle_callback` that resolves `"{keyboard_id}.{button_id}"`
payloads against the in-memory keyboard map. -/

namespace V0

/-- Meal record from `src/main.rs` lines 45-53. -/
structure Meal where
  name : String
  rating : Option Nat
  id : Nat
  url : Option String
  tags : List String
  photos : List String
  deriving DecidableEq, Repr

/-- Meal::rate from `src/main.rs` lines 67-70: clamps into `1..=MAX_RATING`. -/
def Meal.rate (m : Meal) (rating : Nat) : Meal :=
  { m with rating := some (min (max rating 1) 5) }

/-- fmt::Display for Meal from `src/main.rs` lines 93-106. -/
def mealText (m : Meal) : String :=
  strUpper m.name ++ "\n" ++ starsRepeat (m.rating.getD 0) ++ "\n\n"
    ++ m.tags.foldl (fun acc t => acc ++ " | " ++ t) "" ++ " |\n\n("
    ++ m.url.getD "" ++ ")"

/-- ButtonKind enum from `src/main.rs` lines 124-129. -/
inductive BKind where
  | saveMeal (meal_id : Nat)
  | rateMeal (meal_id : Nat) (rating : Nat)
  | cancelMeal (meal_id : Nat)
  deriving DecidableEq, Repr

/-- Button record from `src/main.rs` lines 183-189. -/
structure Button where
  text : String
  id : Nat
  keyboard_id : Option Nat
  kind : BKind
  deriving DecidableEq, Repr

/-- Button::new from `src/main.rs` (fresh `get_id()` passed in). -/
def Button.new (id : Nat) (text : String) (kind : BKind) : Button :=
  { id := id, text := text, keyboard_id := none, kind := kind }

/-- Keyboard record from `src/main.rs` lines 131-135. -/
structure Keyboard where
  id : Nat
  buttons : List (List Button)
  deriving DecidableEq, Repr

/-- Keyboard::buttons from `src/main.rs`: stamps each button's
`keyboard_id`. -/
def Keyboard.withButtons (kb : Keyboard) (buttons : List (List Button)) :
    Keyboard :=
  { kb with
    buttons := buttons.map (fun row => row.map (fun b => { b with keyboard_id := some kb.id })) }

/-- Keyboard::get_btn from `src/main.rs` lines 161-166 (the same lookup as
`src/keyboard.rs` lines 50-55): first button of the flattened rows with the
given id. -/
def Keyboard.get_btn (kb : Keyboard) (button_id : Nat) : Option Button :=
  kb.buttons.flatten.find? (fun b => b.id == button_id)

/-- The in-memory state of `src/main.rs` lines 108-112: keyboard and meal
maps plus the durable meal list of the store. -/
structure StateV where
  keyboards : List (Nat × Keyboard)
  meals : List (Nat × Meal)
  mealsDb : List Meal
  deriving DecidableEq, Repr

/-- Outbound effects of the `src/main.rs` handlers: the
`edit_callback_text` edit and the closing `answer_callback_query` (sent
with no text). -/
inductive Req where
  | editMessage (text : String) (markup : List (List Button))
  | answerCallback
  deriving DecidableEq, Repr

/-- Classifier for edit effects (used to state what a batch lacks). -/
def Req.isEdit : Req → Bool
  | .editMessage _ _ => true
  | .answerCallback => false

/-- rate_meal_button_row from `src/main.rs` lines 213-223. -/
def rateMealButtonRow (gen : Nat → Nat) (k : Nat) (rating : Nat)
    (meal_id : Nat) : List Button :=
  (List.range 5).map fun j =>
    Button.new (gen (k + j)) (if j + 1 ≤ rating then "⭐" else "⚫")
      (.rateMeal meal_id (j + 1))

/-- save_meal_button_row from `src/main.rs` lines 225-229. -/
def saveMealButtonRow (gen : Nat → Nat) (k : Nat) (meal_id : Nat) :
    List Button :=
  [Button.new (gen k) (strUpper "Save Meal") (.saveMeal meal_id),
   Button.new (gen (k + 1)) (strUpper "Cancel") (.cancelMeal meal_id)]

/-- Model of `str::parse::<usize>` on a digit string. -/
def charsToNat? (cs : List Char) : Option Nat :=
  if cs ≠ [] ∧ cs.all Char.isDigit then
    some (cs.foldl (fun n c => n * 10 + (c.toNat - 48)) 0)
  else none

/-- The button dispatch inside `handle_callback`, `src/main.rs` lines
400-459.  `gen` supplies fresh `get_id()` values.  The `RateMeal` arm calls
`.get_mut(&meal_id).unwrap()`; the panic on a missing meal is modelled by
`none`. -/
def runButton (gen : Nat → Nat) (st : StateV) (kind : BKind) :
    Option (StateV × List Req) :=
  match kind with
  | .saveMeal meal_id =>
    match lookupA meal_id st.meals with
    | some meal =>
      some ({ st with mealsDb := st.mealsDb ++ [meal],
                      meals := removeA meal_id st.meals },
        [.editMessage (mealText meal ++ "\n\nSaved!") []])
    | none =>
      some (st, [.editMessage "Failed to save, meal not found!" []])
  | .cancelMeal meal_id =>
    some ({ st with meals := removeA meal_id st.meals },
      [.editMessage "Canceled!" []])
  | .rateMeal meal_id rating =>
    match lookupA meal_id st.meals with
    | none => none
    | some meal =>
      let meal2 := meal.rate rating
      let st1 := { st with meals := insertA meal_id meal2 st.meals }
      let kb := (Keyboard.mk (gen 0) []).withButtons
        [rateMealButtonRow gen 1 rating meal_id, saveMealButtonRow gen 6 meal_id]
      let st2 := { st1 with keyboards := insertA kb.id kb st1.keyboards }
      some (st2, [.editMessage
        (mealText meal2 ++ "\n\nChange Rating or Save your Meal!") kb.buttons])

/-- The resolve chain of `handle_callback`, `src/main.rs` lines 392-399:
split the payload at '.', parse both parts as `usize`, look the keyboard up
and find the button.  Any failure falls through to the plain
`answer_callback_query`. -/
def resolveData (st : StateV) (data : List Char) :
    Option (Nat × Keyboard × Button) :=
  match (splitDot data).get? 0, (splitDot data).get? 1 with
  | some ks, some bs =>
    match charsToNat? ks, charsToNat? bs with
    | some kid, some bid =>
      match lookupA kid st.keyboards with
      | some kb => (kb.get_btn bid).map (fun b => (kid, kb, b))
      | none => none
    | _, _ => none
  | _, _ => none

/-- handle_callback from `src/main.rs` lines 387-471: resolve the payload,
run the matched button, remove the keyboard, and always answer the callback
query (with no text).  `none` models a panic inside the button arm. -/
def handleCallback (gen : Nat → Nat) (st : StateV) (data : Option (List Char)) :
    Option (StateV × List Req) :=
  match data with
  | none => some (st, [.answerCallback])
  | some d =>
    match resolveData st d with
    | none => some (st, [.answerCallback])
    | some (kid, _, b) =>
      (runButton gen st b.kind).map fun r =>
        ({ r.1 with keyboards := removeA kid r.1.keyboards },
         r.2 ++ [.answerCallback])

end V0

/-! ## Helper lemmas about the vote aggregation -/

theorem foldl_add_pairs (l : List (Nat × Nat)) (a : Nat) :
    l.foldl (fun sum vote => sum + vote.1 * vote.2) a
      = a + (l.map (fun p => p.1 * p.2)).sum := by
  induction l generalizing a with
  | nil => simp
  | cons p ps ih => simp [ih, Nat.add_assoc]

theorem weightedSum_eq_sum (options : List Nat) :
    weightedSum options
      = ((enumFromN 0 options).map (fun p => (p.1 + 1) * p.2)).sum := by
  simp [weightedSum, pollVotes, foldl_add_pairs, List.map_map]
  rfl

theorem enumFromN_weighted_le (vs : List Nat) :
    ∀ k : Nat, k + vs.length ≤ 5 →
      ((enumFromN k vs).map (fun p => (p.1 + 1) * p.2)).sum ≤ 5 * vs.sum := by
  induction vs with
  | nil => intro k _; simp [enumFromN]
  | cons v vs ih =>
    intro k hk
    have h1 : k + 1 ≤ 5 := by simp at hk; omega
    have h2 : (k + 1) * v ≤ 5 * v := Nat.mul_le_mul_right v h1
    have h3 := ih (k + 1) (by simp at hk ⊢; omega)
    calc ((enumFromN k (v :: vs)).map (fun p => (p.1 + 1) * p.2)).sum
        = (k + 1) * v + ((enumFromN (k + 1) vs).map (fun p => (p.1 + 1) * p.2)).sum := by
          simp [enumFromN]
      _ ≤ 5 * v + 5 * vs.sum := Nat.add_le_add h2 h3
      _ = 5 * (v :: vs).sum := by simp [Nat.mul_add]

theorem avg_le_five (options : List Nat) (total : Nat)
    (hlen : options.length = 5) (ht : total = options.sum) (hpos : 0 < total) :
    weightedSum options / total ≤ 5 := by
  have h := enumFromN_weighted_le options 0 (by omega)
  rw [weightedSum_eq_sum]
  calc ((enumFromN 0 options).map (fun p => (p.1 + 1) * p.2)).sum / total
      ≤ (5 * total) / total := Nat.div_le_div_right (by rw [ht]; simpa using h)
    _ = 5 := by
        rw [Nat.mul_div_assoc 5 (dvd_refl total), Nat.div_self hpos]

/-! ## C1 -/

/-- C1: when a meal-kind poll closes not-canceled with `total_votes > 0`,
the meal's new rating is exactly `⌊(avg + r0) / 2⌋` where
`avg = ⌊Σ (option_index+1)·voter_count / total_votes⌋` and `r0` is the prior
rating when present, else `avg` itself — i.e. the `u8` casts in
`Poll::handle_votes` never truncate for a five-option poll with a rating in
range, and the blended average of the claim is what gets stored. -/
theorem c1_poll_close_blended_rating
    (gen : Nat → String) (self : Poll) (st : TgState) (upd : PollUpdate)
    (meal_id : String) (reply_message_id : Int) (meal : Meal)
    (hkind : self.poll_kind = .meal meal_id reply_message_id)
    (hmeal : lookupA meal_id st.meals = some meal)
    (hclosed : upd.is_closed = true)
    (hnc : self.is_canceled = false)
    (hlen : upd.options.length = 5)
    (htot : upd.total_voter_count = upd.options.sum)
    (hpos : 0 < upd.total_voter_count)
    (hr : meal.rating.getD 0 ≤ 5) :
    lookupA meal_id (handleVotes gen self st upd).1.meals =
      some (meal.rate (some
        ((weightedSum upd.options / upd.total_voter_count
          + meal.rating.getD (weightedSum upd.options / upd.total_voter_count)) / 2))) := by
  have havg : weightedSum upd.options / upd.total_voter_count ≤ 5 :=
    avg_le_five upd.options upd.total_voter_count hlen htot hpos
  set avg := weightedSum upd.options / upd.total_voter_count with havgdef
  have hmod : avg % 256 = avg := Nat.mod_eq_of_lt (by omega)
  have hgetD : meal.rating.getD avg ≤ 5 := by
    cases hcase : meal.rating with
    | none => simpa [hcase] using havg
    | some r => simpa [hcase] using (by simpa [hcase] using hr)
  have hmod2 : (avg % 256 + meal.rating.getD (avg % 256)) % 256
      = avg + meal.rating.getD avg := by
    rw [hmod]
    exact Nat.mod_eq_of_lt (by omega)
  simp only [handleVotes, hkind]
  have hmeal1 : lookupA meal_id
      ({ st with polls := removeA self.id st.polls } : TgState).meals = some meal := hmeal
  rw [hmeal]
  simp only [hclosed, if_true, hnc, hpos, and_true, gt_iff_lt, if_pos hpos]
  rw [modifyA_of_lookup_some _ _ _ _ hmeal1]
  simp only [lookupA_insertA_self]
  rw [hmod2]

/-- Witness for C1: a poll with votes `[0,0,1,0,0]` (one vote for three
stars) closing over a meal previously rated 5 stores `⌊(3+5)/2⌋ = 4`. -/
theorem c1_witness :
    lookupA "m1"
      (handleVotes (fun _ => "x")
        { id := "p1", poll_id := "tg1", chat_id := 7, message_id := 10,
          poll_kind := .meal "m1" 9, is_canceled := false, keyboard_id := "k1" }
        { keyboards := [], plans := [], polls := [],
          meals := [("m1",
            { name := "Soup", rating := some 5, id := "m1", url := none,
              tags := [], photos := [], chat_id := 7, user_id := 1 })] }
        { is_closed := true, total_voter_count := 1,
          options := [0, 0, 1, 0, 0] }).1.meals =
      some { name := "Soup", rating := some 4, id := "m1", url := none,
             tags := [], photos := [], chat_id := 7, user_id := 1 } := by
  rw [c1_poll_close_blended_rating (fun _ => "x") _ _ _ "m1" 9
    { name := "Soup", rating := some 5, id := "m1", url := none,
      tags := [], photos := [], chat_id := 7, user_id := 1 }
    rfl (by decide) rfl rfl (by decide) (by decide) (by decide) (by decide)]
  decide

/-! ## C5 -/

@[simp] theorem keyboard_save_meals (kb : Keyboard) (st : TgState) :
    (kb.save st).meals = st.meals := by
  unfold Keyboard.save
  split <;> rfl

@[simp] theorem poll_save_meals (p : Poll) (st : TgState) :
    (p.save st).meals = st.meals := rfl

/-- C5: a meal poll that is canceled, or still open, or closing with zero
votes, never modifies the meal map — `handle_votes` only touches the poll
and keyboard registries in those branches — and the `CancelPollRating`
button likewise leaves every meal untouched; hence a poll canceled before
closing never changes the meal's rating regardless of the votes cast. -/
theorem c5_cancel_discards_tallies
    (gen : Nat → String) (self : Poll) (st : TgState) (upd : PollUpdate)
    (poll_id : String)
    (h : self.is_canceled = true ∨ upd.is_closed = false ∨
      upd.total_voter_count = 0) :
    (handleVotes gen self st upd).1.meals = st.meals ∧
    (runCancelPollRating st poll_id).1.meals = st.meals := by
  constructor
  · cases hkind : self.poll_kind with
    | plan plan_id => simp [handleVotes, hkind]
    | meal meal_id reply_message_id =>
      simp only [handleVotes, hkind]
      cases hmeal : lookupA meal_id st.meals with
      | none => rfl
      | some meal =>
        cases hc : upd.is_closed with
        | false =>
          simp only [Bool.false_eq_true, if_false]
          by_cases htv : upd.total_voter_count > 0 <;>
            simp [htv, Poll.save, Keyboard.save] <;> split <;> rfl
        | true =>
          have hcond : ¬ (upd.total_voter_count > 0 ∧ self.is_canceled = false) := by
            rcases h with h | h | h
            · rintro ⟨-, hcf⟩
              rw [h] at hcf
              simp at hcf
            · rw [h] at hc
              simp at hc
            · rintro ⟨hpos, -⟩
              omega
          simp only [if_true, if_neg hcond]
          simp [Keyboard.save]
          split <;> rfl
  · unfold runCancelPollRating
    rcases hmod : modifyA poll_id Poll.cancel st.polls with ⟨res, polls2⟩
    cases res <;> simp [hmod]

/-- Witness for C5: a canceled five-option poll closing with ten votes for
one star leaves the stored meal (rated 4) untouched, and hitting the cancel
button itself does not touch the meal map either. -/
theorem c5_witness :
    (handleVotes (fun _ => "x")
        { id := "p1", poll_id := "tg1", chat_id := 7, message_id := 10,
          poll_kind := .meal "m1" 9, is_canceled := true, keyboard_id := "k1" }
        { keyboards := [], plans := [], polls := [],
          meals := [("m1",
            { name := "Soup", rating := some 4, id := "m1", url := none,
              tags := [], photos := [], chat_id := 7, user_id := 1 })] }
        { is_closed := true, total_voter_count := 10,
          options := [10, 0, 0, 0, 0] }).1.meals =
      [("m1",
        { name := "Soup", rating := some 4, id := "m1", url := none,
          tags := [], photos := [], chat_id := 7, user_id := 1 })] ∧
    (runCancelPollRating
        { keyboards := [], plans := [], polls := [],
          meals := [("m1",
            { name := "Soup", rating := some 4, id := "m1", url := none,
              tags := [], photos := [], chat_id := 7, user_id := 1 })] }
        "p1").1.meals =
      [("m1",
        { name := "Soup", rating := some 4, id := "m1", url := none,
          tags := [], photos := [], chat_id := 7, user_id := 1 })] :=
  c5_cancel_discards_tallies (fun _ => "x") _ _ _ "p1" (Or.inl rfl)

/-! ## C7 -/

/-- C7 (counterexample): on an intermediate vote tick (poll open, one vote)
the poll registry afterwards holds two records — the untouched original
(still pointing at the removed keyboard `"k1"`) and a freshly inserted one —
refuting that the existing record is re-pointed in place with no second
record left behind. -/
theorem c7_counterexample :
    ((handleVotes
        (fun j => if j = 0 then "k2" else if j = 1 then "b1" else if j = 2 then "b2" else "p2")
        { id := "p1", poll_id := "tg1", chat_id := 7, message_id := 10,
          poll_kind := .meal "m1" 9, is_canceled := false, keyboard_id := "k1" }
        { keyboards := [("k1", { id := "k1", buttons := [[]], chat_id := 7 })],
          plans := [], polls := [("p1",
            { id := "p1", poll_id := "tg1", chat_id := 7, message_id := 10,
              poll_kind := .meal "m1" 9, is_canceled := false,
              keyboard_id := "k1" })],
          meals := [("m1",
            { name := "Soup", rating := some 4, id := "m1", url := none,
              tags := [], photos := [], chat_id := 7, user_id := 1 })] }
        { is_closed := false, total_voter_count := 1,
          options := [1, 0, 0, 0, 0] }).1.polls.length = 2) ∧
    (lookupA "p1"
      (handleVotes
        (fun j => if j = 0 then "k2" else if j = 1 then "b1" else if j = 2 then "b2" else "p2")
        { id := "p1", poll_id := "tg1", chat_id := 7, message_id := 10,
          poll_kind := .meal "m1" 9, is_canceled := false, keyboard_id := "k1" }
        { keyboards := [("k1", { id := "k1", buttons := [[]], chat_id := 7 })],
          plans := [], polls := [("p1",
            { id := "p1", poll_id := "tg1", chat_id := 7, message_id := 10,
              poll_kind := .meal "m1" 9, is_canceled := false,
              keyboard_id := "k1" })],
          meals := [("m1",
            { name := "Soup", rating := some 4, id := "m1", url := none,
              tags := [], photos := [], chat_id := 7, user_id := 1 })] }
        { is_closed := false, total_voter_count := 1,
          options := [1, 0, 0, 0, 0] }).1.polls).map Poll.keyboard_id
      = some "k1" := by
  constructor
  · decide
  · decide

/-- C7 (amended): on every intermediate vote tick of a still-open meal poll,
the previous keyboard is removed from the registry and a fresh keyboard is
registered, but the Poll record is not mutated in place: a new Poll record
with a fresh id — copying the external poll id, chat, message id and kind,
with `canceled = false` and the new keyboard id — is inserted alongside,
while the record keyed by the old poll id is left exactly as it was (still
naming the discarded keyboard). -/
theorem c7_amended_tick_inserts_fresh_poll
    (gen : Nat → String) (self : Poll) (st : TgState) (upd : PollUpdate)
    (meal_id : String) (reply_message_id : Int) (meal : Meal)
    (hkind : self.poll_kind = .meal meal_id reply_message_id)
    (hmeal : lookupA meal_id st.meals = some meal)
    (hopen : upd.is_closed = false)
    (hfresh : ∀ j, gen j ≠ self.id) :
    ∃ kb : Keyboard, ∃ newPoll : Poll,
      kb.id = gen 0 ∧
      (handleVotes gen self st upd).1.keyboards
        = insertA kb.id kb (removeA self.keyboard_id st.keyboards) ∧
      (handleVotes gen self st upd).1.polls
        = insertA newPoll.id newPoll st.polls ∧
      newPoll.id ≠ self.id ∧
      newPoll.poll_id = self.poll_id ∧
      newPoll.chat_id = self.chat_id ∧
      newPoll.message_id = self.message_id ∧
      newPoll.poll_kind = self.poll_kind ∧
      newPoll.is_canceled = false ∧
      newPoll.keyboard_id = kb.id ∧
      lookupA self.id (handleVotes gen self st upd).1.polls
        = lookupA self.id st.polls := by
  simp only [handleVotes, hkind, hmeal, hopen, Bool.false_eq_true, if_false]
  by_cases htv : upd.total_voter_count > 0
  · simp only [htv, if_true]
    refine ⟨(Keyboard.new (gen 0) self.chat_id).withButtons
        [savePollButtonRow gen 1 meal.id self.id],
      Poll.new (gen 3) self.poll_id self.chat_id self.message_id
        (.meal meal_id reply_message_id) (gen 0),
      rfl, ?_, ?_, hfresh 3, rfl, rfl, rfl, ?_, rfl, rfl, ?_⟩
    · simp [Poll.save, Keyboard.save, Keyboard.withButtons, Keyboard.new,
        savePollButtonRow]
    · simp [Poll.save, Keyboard.save, Keyboard.withButtons, Keyboard.new,
        savePollButtonRow, Poll.new]
    · rfl
    · simp [Poll.save, Keyboard.save, Keyboard.withButtons, Keyboard.new,
        savePollButtonRow, Poll.new]
      rw [lookupA_insertA_ne _ _ _ _ (hfresh 3)]
  · simp only [htv, if_false]
    refine ⟨(Keyboard.new (gen 0) self.chat_id).withButtons
        [[Button.new (gen 1) (strUpper "Cancel Vote") (.cancelPollRating self.id)]],
      Poll.new (gen 2) self.poll_id self.chat_id self.message_id
        (.meal meal_id reply_message_id) (gen 0),
      rfl, ?_, ?_, hfresh 2, rfl, rfl, rfl, ?_, rfl, rfl, ?_⟩
    · simp [Poll.save, Keyboard.save, Keyboard.withButtons, Keyboard.new,
        Button.new]
    · simp [Poll.save, Keyboard.save, Keyboard.withButtons, Keyboard.new,
        Button.new, Poll.new]
    · rfl
    · simp [Poll.save, Keyboard.save, Keyboard.withButtons, Keyboard.new,
        Button.new, Poll.new]
      rw [lookupA_insertA_ne _ _ _ _ (hfresh 2)]

/-- Witness for C7's amended statement at the counterexample's input. -/
theorem c7_amended_witness :
    ∃ kb : Keyboard, ∃ newPoll : Poll,
      kb.id = "k2" ∧
      (handleVotes
        (fun j => if j = 0 then "k2" else if j = 1 then "b1" else if j = 2 then "b2" else "p2")
        { id := "p1", poll_id := "tg1", chat_id := 7, message_id := 10,
          poll_kind := .meal "m1" 9, is_canceled := false, keyboard_id := "k1" }
        { keyboards := [("k1", { id := "k1", buttons := [[]], chat_id := 7 })],
          plans := [], polls := [("p1",
            { id := "p1", poll_id := "tg1", chat_id := 7, message_id := 10,
              poll_kind := .meal "m1" 9, is_canceled := false,
              keyboard_id := "k1" })],
          meals := [("m1",
            { name := "Soup", rating := some 4, id := "m1", url := none,
              tags := [], photos := [], chat_id := 7, user_id := 1 })] }
        { is_closed := false, total_voter_count := 1,
          options := [1, 0, 0, 0, 0] }).1.keyboards
        = insertA kb.id kb (removeA "k1"
            [("k1", ({ id := "k1", buttons := [[]], chat_id := 7 } : Keyboard))]) ∧
      newPoll.id ≠ "p1" ∧ newPoll.keyboard_id = kb.id := by
  obtain ⟨kb, np, h1, h2, _, h4, _, _, _, _, _, h10, _⟩ :=
    c7_amended_tick_inserts_fresh_poll
      (fun j => if j = 0 then "k2" else if j = 1 then "b1" else if j = 2 then "b2" else "p2")
      { id := "p1", poll_id := "tg1", chat_id := 7, message_id := 10,
        poll_kind := .meal "m1" 9, is_canceled := false, keyboard_id := "k1" }
      { keyboards := [("k1", { id := "k1", buttons := [[]], chat_id := 7 })],
        plans := [], polls := [("p1",
          { id := "p1", poll_id := "tg1", chat_id := 7, message_id := 10,
            poll_kind := .meal "m1" 9, is_canceled := false,
            keyboard_id := "k1" })],
        meals := [("m1",
          { name := "Soup", rating := some 4, id := "m1", url := none,
            tags := [], photos := [], chat_id := 7, user_id := 1 })] }
      { is_closed := false, total_voter_count := 1, options := [1, 0, 0, 0, 0] }
      "m1" 9
      { name := "Soup", rating := some 4, id := "m1", url := none,
        tags := [], photos := [], chat_id := 7, user_id := 1 }
      rfl (by decide) rfl
      (by
        intro j
        by_cases h0 : j = 0
        · subst h0; decide
        · by_cases h1 : j = 1
          · subst h1; decide
          · by_cases h2 : j = 2
            · subst h2; decide
            · simp only [h0, h1, h2, if_false]
              decide)
  exact ⟨kb, np, h1, h2, h4, h10⟩

/-! ## Sampler lemmas for C2 and C4 -/

theorem susMany_nilWeights (gap acc : ℚ) (hgap : 0 ≤ gap) :
    ∀ (n i : Nat) (spoke : ℚ), spoke + n * gap ≤ acc + gap →
      susMany n [] i acc spoke gap = some (List.replicate n i) := by
  intro n
  induction n with
  | zero => intro i spoke _; rfl
  | succ n ih =>
    intro i spoke h
    have hng : 0 ≤ (n : ℚ) * gap := mul_nonneg (by positivity) hgap
    have hcast : ((n + 1 : Nat) : ℚ) = (n : ℚ) + 1 := by push_cast; ring
    have hle : ¬ acc < spoke := by
      push_neg
      rw [hcast] at h
      nlinarith
    simp only [susMany, susLoop, if_neg hle]
    rw [ih i (spoke + gap) (by rw [hcast] at h; ring_nf; ring_nf at h; linarith)]
    rfl

theorem randomChoiceIndices_single (w : ℚ) (hw : 0 < w) (n : Nat) (hn : n ≠ 0)
    (spin01 : ℚ) (h1 : spin01 ≤ 1) :
    randomChoiceIndices [w] n spin01 = some (List.replicate n 0) := by
  have hnq : (0 : ℚ) < n := by
    exact_mod_cast Nat.pos_of_ne_zero hn
  have hsum : ([w] : List ℚ).sum = w := by simp
  have hgap : 0 ≤ w / (n : ℚ) := le_of_lt (div_pos hw hnq)
  simp only [randomChoiceIndices, if_neg hn, hsum]
  apply susMany_nilWeights _ _ hgap
  have hmul : (n : ℚ) * (w / (n : ℚ)) = w := by
    field_simp
  have hspin : spin01 * (w / (n : ℚ)) ≤ w / (n : ℚ) := by
    calc spin01 * (w / (n : ℚ)) ≤ 1 * (w / (n : ℚ)) :=
          mul_le_mul_of_nonneg_right h1 hgap
      _ = w / (n : ℚ) := one_mul _
  linarith

theorem susMany_length :
    ∀ (n : Nat) (rest : List ℚ) (i : Nat) (acc spoke gap : ℚ) (l : List Nat),
      susMany n rest i acc spoke gap = some l → l.length = n := by
  intro n
  induction n with
  | zero =>
    intro rest i acc spoke gap l h
    simp only [susMany] at h
    cases h
    rfl
  | succ n ih =>
    intro rest i acc spoke gap l h
    simp only [susMany] at h
    cases hloop : susLoop rest i acc spoke with
    | none => rw [hloop] at h; cases h
    | some r =>
      obtain ⟨j, acc2, rest2⟩ := r
      rw [hloop] at h
      simp only at h
      cases hrec : susMany n rest2 j acc2 (spoke + gap) gap with
      | none => rw [hrec] at h; cases h
      | some l2 =>
        rw [hrec] at h
        simp only [Option.map] at h
        cases h
        simp [ih rest2 j acc2 (spoke + gap) gap l2 hrec]

theorem randomChoiceIndices_length (weights : List ℚ) (n : Nat) (spin01 : ℚ)
    (l : List Nat) (h : randomChoiceIndices weights n spin01 = some l) :
    l.length = if weights = [] ∨ n = 0 then 0 else n := by
  match weights with
  | [] =>
    simp only [randomChoiceIndices] at h
    cases h
    simp
  | w0 :: ws =>
    simp only [randomChoiceIndices] at h
    by_cases hn : n = 0
    · rw [if_pos hn] at h
      cases h
      simp [hn]
    · rw [if_neg hn] at h
      have := susMany_length n ws 0 w0 _ _ l h
      simp [hn, this]

/-- One-candidate evaluation of `Plan::gen`: an unrated single meal has
weight 1, and every spoke selects it, so the plan repeats that meal
`amount` times. -/
theorem plan_gen_one_unrated (id : String) (chat : Int) (m : Meal)
    (hm : m.rating = none) (n : Nat) (hn : n ≠ 0) (spin01 : ℚ)
    (h1 : spin01 ≤ 1) :
    Plan.gen id chat [m] n spin01 =
      some { chat_id := chat, meals := List.replicate n m,
             days := n, id := id } := by
  simp only [Plan.gen]
  have hw : ([m].map (fun meal => ((meal.rating.getD 1 : Nat) : ℚ))) = [(1 : ℚ)] := by
    simp [hm]
  rw [hw, randomChoiceIndices_single 1 one_pos n hn spin01 h1]
  simp [List.map_replicate]

/-! ## C2 -/

/-- Concrete unrated meal used to exercise the plan sampler. -/
def c2Meal : Meal :=
  { name := "Pasta", rating := none, id := "m1", url := none, tags := [],
    photos := [], chat_id := 0, user_id := 0 }

/-- C2 (counterexample): generating a 2-day plan from the single candidate
`c2Meal` (with the sampler's spin at 0, a value the rng can produce)
returns the same meal twice — the sample is not without replacement, the
result is not pairwise distinct, and for `n > len(candidates)` the plan has
`n` meals rather than `len(candidates)`. -/
theorem c2_counterexample :
    Plan.gen "p1" 0 [c2Meal] 2 0 =
      some { chat_id := 0, meals := [c2Meal, c2Meal], days := 2, id := "p1" } ∧
    (Plan.gen "p1" 0 [c2Meal] 2 0).map (fun p => p.meals.length) = some 2 ∧
    [c2Meal].length = 1 := by
  have h := plan_gen_one_unrated "p1" 0 c2Meal rfl 2 (by decide) 0 (by norm_num)
  refine ⟨?_, ?_, rfl⟩
  · rw [h]
    rfl
  · rw [h]
    rfl

/-- C2 (amended): plan generation uses the crate's stochastic universal
sampling, which can repeat a candidate: the empty candidate list yields an
empty plan without crashing, and for a nonempty candidate list and `n > 0`
every successful draw returns exactly `n` meals (duplicates possible, even
when `n` exceeds the number of candidates). -/
theorem c2_amended_sus_sampling :
    (∀ (id : String) (chat : Int) (n : Nat) (spin01 : ℚ),
      Plan.gen id chat [] n spin01 =
        some { chat_id := chat, meals := [], days := 0, id := id }) ∧
    (∀ (id : String) (chat : Int) (meals : List Meal) (n : Nat) (spin01 : ℚ)
      (p : Plan), meals ≠ [] → n ≠ 0 →
      Plan.gen id chat meals n spin01 = some p → p.meals.length = n) := by
  constructor
  · intro id chat n spin01
    rfl
  · intro id chat meals n spin01 p hm hn h
    simp only [Plan.gen] at h
    cases hr : randomChoiceIndices
        (meals.map (fun meal => ((meal.rating.getD 1 : Nat) : ℚ))) n spin01 with
    | none => rw [hr] at h; cases h
    | some idxs =>
      rw [hr] at h
      simp only [Option.map] at h
      have hlen := randomChoiceIndices_length _ _ _ _ hr
      have hmw : (meals.map (fun meal => ((meal.rating.getD 1 : Nat) : ℚ))) ≠ [] := by
        simpa using hm
      rw [if_neg (by simp [hmw, hn])] at hlen
      cases h
      simpa using hlen

/-- Witness for C2's amended statement: the concrete 2-day draw from one
candidate has exactly 2 meals, and the empty candidate list gives the empty
plan. -/
theorem c2_amended_witness :
    Plan.gen "p" 9 [] 4 0 = some { chat_id := 9, meals := [], days := 0, id := "p" } ∧
    ({ chat_id := 0, meals := [c2Meal, c2Meal], days := 2, id := "p1" } : Plan).meals.length = 2 := by
  constructor
  · exact c2_amended_sus_sampling.1 "p" 9 4 0
  · exact c2_amended_sus_sampling.2 "p1" 0 [c2Meal] 2 0 _ (by decide) (by decide)
      (plan_gen_one_unrated "p1" 0 c2Meal rfl 2 (by decide) 0 (by norm_num))

/-! ## C10 -/

/-- C10: both plan constructors establish `days = meals.length` — `Plan::new`
sets `days` to the input list's length and `Plan::gen` sets it to the number
of meals actually drawn. -/
theorem c10_plan_days_invariant :
    (∀ (id : String) (chat : Int) (meals : List Meal),
      (Plan.new id chat meals).days = meals.length) ∧
    (∀ (id : String) (chat : Int) (meals : List Meal) (n : Nat) (spin01 : ℚ)
      (p : Plan), Plan.gen id chat meals n spin01 = some p →
      p.days = p.meals.length) := by
  constructor
  · intro id chat meals
    rfl
  · intro id chat meals n spin01 p h
    simp only [Plan.gen] at h
    cases hr : randomChoiceIndices
        (meals.map (fun meal => ((meal.rating.getD 1 : Nat) : ℚ))) n spin01 with
    | none => rw [hr] at h; cases h
    | some idxs =>
      rw [hr] at h
      simp only [Option.map] at h
      cases h
      rfl

/-- Witness for C10 at concrete inputs: a `Plan::new` over two meals has
`days = 2`, and the concrete `Plan::gen` result over the empty candidate
list satisfies `days = meals.length`. -/
theorem c10_witness :
    (Plan.new "q" 5 [defaultMeal, defaultMeal]).days = 2 ∧
    ({ chat_id := 3, meals := [], days := 0, id := "q2" } : Plan).days =
      ({ chat_id := 3, meals := [], days := 0, id := "q2" } : Plan).meals.length := by
  constructor
  · exact c10_plan_days_invariant.1 "q" 5 [defaultMeal, defaultMeal]
  · exact c10_plan_days_invariant.2 "q2" 3 [] 7 0 _ rfl

/-! ## C4 -/

/-- Number of days actually drawn by `Plan::gen`: zero for an empty candidate
list or a zero request, otherwise exactly the requested amount. -/
theorem plan_gen_days (id : String) (chat : Int) (meals : List Meal) (n : Nat)
    (spin01 : ℚ) (p : Plan) (h : Plan.gen id chat meals n spin01 = some p) :
    p.days = if meals = [] ∨ n = 0 then 0 else n := by
  simp only [Plan.gen] at h
  cases hr : randomChoiceIndices
      (meals.map (fun meal => ((meal.rating.getD 1 : Nat) : ℚ))) n spin01 with
  | none => rw [hr] at h; cases h
  | some idxs =>
    rw [hr] at h
    simp only [Option.map] at h
    have hlen := randomChoiceIndices_length _ _ _ _ hr
    cases h
    simp only [List.length_map]
    rw [hlen]
    by_cases hm : meals = [] <;> simp [hm]

/-- Concrete unrated meal for the plan-command boundary check. -/
def c4Meal : Meal :=
  { name := "Stew", rating := none, id := "m1", url := none, tags := [],
    photos := [], chat_id := 0, user_id := 0 }

/-- Shared state holding just `c4Meal` and no plan. -/
def c4St : TgState :=
  { keyboards := [], meals := [("m1", c4Meal)], polls := [], plans := [] }

/-- The plan `Plan::gen` builds for the rejected 11-day request. -/
def c4Plan : Plan :=
  { chat_id := 0, meals := List.replicate 11 c4Meal, days := 11, id := "g" }

/-- The state after the rejected request: the generated plan was persisted. -/
def c4StAfter : TgState :=
  { keyboards := [], meals := [("m1", c4Meal)], polls := [],
    plans := [("g", c4Plan)] }

/-- Evaluation of the Plan command branch on an 11-day request over one
candidate meal: the plan is generated and saved first, then the range check
rejects with the user-facing message. -/
theorem c4_run_eval :
    Command.runPlan (fun _ => "g") 0 c4St 0 (some 11) =
      some (c4StAfter, [Req.message 0 "Can only plan for a maximum of 10 days!"]) := by
  have ham : allChatMeals c4St 0 = [c4Meal] := by decide
  have hgen := plan_gen_one_unrated "g" 0 c4Meal rfl 11 (by decide) 0 (by norm_num)
  simp only [Command.runPlan, ham, hgen, Option.map]
  norm_num
  decide

/-- C4 (counterexample): the 11-day request over one candidate is rejected
with the user-facing message, yet the freshly generated Plan has already
been persisted into the shared plans map (which started empty) — refuting
that no Plan object is persisted for a rejected request, and that sampling
never occurs before rejection. -/
theorem c4_counterexample :
    Command.runPlan (fun _ => "g") 0 c4St 0 (some 11) =
      some (c4StAfter, [Req.message 0 "Can only plan for a maximum of 10 days!"]) ∧
    c4St.plans = [] ∧
    c4StAfter.plans.map (·.1) = ["g"] := by
  exact ⟨c4_run_eval, rfl, rfl⟩

/-- C4 (amended): a plan request whose day count is outside `2..=10` yields
exactly one of the two user-facing rejection messages and nothing else (no
poll is sent, no old plan removed, no clamping into range) — but the
sampler runs first and the generated Plan is persisted into shared state
before the range check is evaluated. -/
theorem c4_amended_reject_after_persist
    (gen : Nat → String) (spin01 : ℚ) (st : TgState) (chat : Int) (days : Nat)
    (st2 : TgState) (reqs : List Req)
    (hdays : days < 2 ∨ days > 10)
    (hrun : Command.runPlan gen spin01 st chat (some days) = some (st2, reqs)) :
    ∃ p : Plan,
      Plan.gen (gen 0) chat (allChatMeals st chat) days spin01 = some p ∧
      st2 = p.save st ∧
      (reqs = [Req.message chat "Plan for at least 2 days!"] ∨
       reqs = [Req.message chat "Can only plan for a maximum of 10 days!"]) := by
  simp only [Command.runPlan] at hrun
  cases hgen : Plan.gen (gen 0) chat (allChatMeals st chat) days spin01 with
  | none => rw [hgen] at hrun; cases hrun
  | some p =>
    rw [hgen] at hrun
    simp only [Option.map] at hrun
    refine ⟨p, rfl, ?_⟩
    have hd := plan_gen_days _ _ _ _ _ _ hgen
    by_cases hcase : allChatMeals st chat = [] ∨ days = 0
    · rw [if_pos hcase] at hd
      rw [if_pos (by omega)] at hrun
      cases hrun
      exact ⟨rfl, Or.inl rfl⟩
    · rw [if_neg hcase] at hd
      rcases hdays with hlt | hgt
      · rw [if_pos (by omega)] at hrun
        cases hrun
        exact ⟨rfl, Or.inl rfl⟩
      · rw [if_neg (by omega), if_pos (by omega)] at hrun
        cases hrun
        exact ⟨rfl, Or.inr rfl⟩

/-- Witness for C4's amended statement at the 11-day request. -/
theorem c4_amended_witness :
    ∃ p : Plan,
      Plan.gen "g" 0 (allChatMeals c4St 0) 11 0 = some p ∧
      c4StAfter = p.save c4St ∧
      ([Req.message 0 "Can only plan for a maximum of 10 days!"]
          = [Req.message (0 : Int) "Plan for at least 2 days!"] ∨
       [Req.message 0 "Can only plan for a maximum of 10 days!"]
          = [Req.message (0 : Int) "Can only plan for a maximum of 10 days!"]) :=
  c4_amended_reject_after_persist (fun _ => "g") 0 c4St 0 11 c4StAfter
    [Req.message 0 "Can only plan for a maximum of 10 days!"]
    (Or.inr (by norm_num)) c4_run_eval

/-! ## C3 -/

/-- C3: a registered keyboard resolves its button exactly once — the first
resolve of the correlation id returns the keyboard and button, and after
`handle_callback` runs the click (which ends by removing the keyboard), the
id is gone from the registry and a second resolve of the same payload
returns nothing. -/
theorem c3_single_use_resolution
    (gen : Nat → Nat) (st : V0.StateV) (d ks bs : List Char) (kid bid : Nat)
    (kb : V0.Keyboard) (b : V0.Button)
    (h0 : (splitDot d)[0]? = some ks)
    (h1 : (splitDot d)[1]? = some bs)
    (hpk : V0.charsToNat? ks = some kid)
    (hpb : V0.charsToNat? bs = some bid)
    (hkb : lookupA kid st.keyboards = some kb)
    (hbtn : kb.get_btn bid = some b) :
    V0.resolveData st d = some (kid, kb, b) ∧
    ∀ (st2 : V0.StateV) (reqs : List V0.Req),
      V0.handleCallback gen st (some d) = some (st2, reqs) →
      lookupA kid st2.keyboards = none ∧ V0.resolveData st2 d = none := by
  have hres : V0.resolveData st d = some (kid, kb, b) := by
    simp [V0.resolveData, h0, h1, hpk, hpb, hkb, hbtn]
  refine ⟨hres, ?_⟩
  intro st2 reqs hrun
  simp only [V0.handleCallback, hres] at hrun
  cases hrb : V0.runButton gen st b.kind with
  | none => rw [hrb] at hrun; cases hrun
  | some r =>
    rw [hrb] at hrun
    simp only [Option.map] at hrun
    cases hrun
    refine ⟨lookupA_removeA_self kid r.1.keyboards, ?_⟩
    simp [V0.resolveData, h0, h1, hpk, hpb, lookupA_removeA_self]

/-- Concrete keyboard `1` holding the cancel button `2` for meal `5`. -/
def c3Kb : V0.Keyboard :=
  { id := 1,
    buttons := [[{ text := "CANCEL", id := 2, keyboard_id := some 1,
                   kind := .cancelMeal 5 }]] }

/-- Registry state holding only `c3Kb`. -/
def c3St : V0.StateV :=
  { keyboards := [(1, c3Kb)], meals := [], mealsDb := [] }

/-- Witness for C3: payload `"1.2"` resolves `c3Kb`'s button once; after the
click is handled the registry is empty and the same payload resolves to
nothing. -/
theorem c3_witness :
    V0.resolveData c3St "1.2".data =
      some (1, c3Kb,
        { text := "CANCEL", id := 2, keyboard_id := some 1,
          kind := .cancelMeal 5 }) ∧
    lookupA 1 ({ keyboards := [], meals := [], mealsDb := [] } : V0.StateV).keyboards = none ∧
    V0.resolveData { keyboards := [], meals := [], mealsDb := [] } "1.2".data = none := by
  have h := c3_single_use_resolution (fun n => n) c3St "1.2".data
    "1".data "2".data 1 2 c3Kb
    { text := "CANCEL", id := 2, keyboard_id := some 1, kind := .cancelMeal 5 }
    (by decide) (by decide) (by decide) (by decide) (by decide) (by decide)
  have h2 := h.2 { keyboards := [], meals := [], mealsDb := [] }
    [.editMessage "Canceled!" [], .answerCallback] (by decide)
  exact ⟨h.1, h2.1, h2.2⟩

/-! ## C6 -/

/-- C6 (counterexample): a callback whose correlation id is not in the
registry (payload `"5.7"` against an empty registry) is handled without
crashing, but the only emitted effect is the bare callback answer — no
"outdated, please rerun" notice and no edit stripping the dead button row
is produced. -/
theorem c6_counterexample :
    V0.handleCallback (fun n => n) { keyboards := [], meals := [], mealsDb := [] }
        (some "5.7".data) =
      some ({ keyboards := [], meals := [], mealsDb := [] },
        [V0.Req.answerCallback]) ∧
    [V0.Req.answerCallback].filter V0.Req.isEdit = [] := by
  exact ⟨by decide, rfl⟩

/-- C6 (amended): a callback whose payload does not resolve against the
registry (stale, expired, or cross-restart click) never crashes the flow
and never runs a button: the state is returned unchanged and the only
effect is answering the callback query with no text — in particular no
user-visible notice and no message edit is emitted. -/
theorem c6_amended_stale_click_silent
    (gen : Nat → Nat) (st : V0.StateV) (d : List Char)
    (h : V0.resolveData st d = none) :
    V0.handleCallback gen st (some d) = some (st, [V0.Req.answerCallback]) := by
  simp [V0.handleCallback, h]

/-- Witness for C6's amended statement: payload `"9.9"` against the empty
registry. -/
theorem c6_amended_witness :
    V0.handleCallback (fun n => n) { keyboards := [], meals := [], mealsDb := [] }
        (some "9.9".data) =
      some ({ keyboards := [], meals := [], mealsDb := [] },
        [V0.Req.answerCallback]) :=
  c6_amended_stale_click_silent (fun n => n)
    { keyboards := [], meals := [], mealsDb := [] } "9.9".data (by decide)

/-! ## C8 -/

/-- Text payload of an edit request (used to state which branch fired). -/
def Req.editText : Req → Option String
  | .editMessage _ _ t _ => some t
  | _ => none

/-- Keyboard `1` of the earlier revision holding rate button `2` for the
(absent) meal `9`. -/
def c8Kb : V0.Keyboard :=
  { id := 1,
    buttons := [[{ text := "⭐", id := 2, keyboard_id := some 1,
                   kind := .rateMeal 9 3 }]] }

/-- C8: replaying `DeleteMeal` on an absent meal id resolves to the
`No meal to delete found!` branch with the state unchanged (so any number
of replays is safe), and `RateMeal` on an absent id resolves to the
`No meal with to rate!` branch in `ButtonKind::run` — but the cited
`handle_callback` of `src/main.rs` instead panics (`Option::unwrap` on
`None`) when its `RateMeal` arm runs for a missing meal, modelled here by
the `none` result. -/
theorem c8_missing_meal_branches :
    runDeleteMeal { keyboards := [], meals := [], polls := [], plans := [] }
        0 5 "x" =
      ({ keyboards := [], meals := [], polls := [], plans := [] },
       [Req.editMessage 0 5 "No meal to delete found!" none]) ∧
    (runRateMeal (fun _ => "i")
        { keyboards := [], meals := [], polls := [], plans := [] }
        0 0 5 "x" 3).1.meals = [] ∧
    (runRateMeal (fun _ => "i")
        { keyboards := [], meals := [], polls := [], plans := [] }
        0 0 5 "x" 3).2.map Req.editText = [some "No meal with to rate!"] ∧
    V0.handleCallback (fun n => n + 100)
        { keyboards := [(1, c8Kb)], meals := [], mealsDb := [] }
        (some "1.2".data) = none := by
  refine ⟨by decide, by decide, by decide, by decide⟩

/-! ## C9 -/

theorem splitDot_no_dot (ys : List Char) (hy : '.' ∉ ys) :
    splitDot ys = [ys] := by
  induction ys with
  | nil => rfl
  | cons c cs ih =>
    have hc : ¬ c = '.' := fun hcc => hy (by simp [hcc])
    have hcs : '.' ∉ cs := fun hm => hy (List.mem_cons_of_mem c hm)
    simp [splitDot, hc, ih hcs]

theorem splitDot_append (xs ys : List Char) (hx : '.' ∉ xs) (hy : '.' ∉ ys) :
    splitDot (xs ++ '.' :: ys) = [xs, ys] := by
  induction xs with
  | nil => simp [splitDot, splitDot_no_dot ys hy]
  | cons c cs ih =>
    have hc : ¬ c = '.' := fun hcc => hx (by simp [hcc])
    have hcs : '.' ∉ cs := fun hm => hx (List.mem_cons_of_mem c hm)
    simp [splitDot, hc, ih hcs]

theorem nanoid_no_dot (s : String) (h : nanoidOk s = true) : '.' ∉ s.data := by
  intro hm
  have h2 : s.data.all (fun c => nanoidAlphabet.contains c) = true := h
  have hall := List.all_eq_true.mp h2 '.' hm
  exact absurd hall (by decide)

/-- C9: a button's outbound callback payload is exactly
`"{keyboard_id}.{button_id}"` when an owning keyboard id exists and
`".{button_id}"` otherwise; nanoid ids never contain the separator `.`, and
splitting the payload at `'.'` recovers the original `(keyboard id,
button id)` pair. -/
theorem c9_callback_payload_roundtrip
    (b : Button) (kid : String)
    (hkid : nanoidOk kid = true) (hbid : nanoidOk b.id = true) :
    '.' ∉ kid.data ∧ '.' ∉ b.id.data ∧
    (b.keyboard_id = some kid →
      b.callbackData = kid.data ++ '.' :: b.id.data ∧
      splitDot b.callbackData = [kid.data, b.id.data]) ∧
    (b.keyboard_id = none →
      b.callbackData = '.' :: b.id.data ∧
      splitDot b.callbackData = [[], b.id.data]) := by
  have hk := nanoid_no_dot kid hkid
  have hb := nanoid_no_dot b.id hbid
  refine ⟨hk, hb, ?_, ?_⟩
  · intro hsome
    constructor
    · simp [Button.callbackData, hsome]
    · simp [Button.callbackData, hsome, splitDot_append _ _ hk hb]
  · intro hnone
    constructor
    · simp [Button.callbackData, hnone]
    · simp [Button.callbackData, hnone, splitDot, splitDot_no_dot _ hb]

/-- Witness for C9: the payload of a button with id `"ab"` owned by keyboard
`"cd"` splits back into the pair, and a keyboard-less button with id `"ef"`
yields `".ef"`. -/
theorem c9_witness :
    splitDot ({ text := "T", id := "ab", keyboard_id := some "cd",
                kind := .showList } : Button).callbackData
      = ["cd".data, "ab".data] ∧
    ({ text := "T", id := "ef", keyboard_id := none,
       kind := .showList } : Button).callbackData = '.' :: "ef".data := by
  constructor
  · exact ((c9_callback_payload_roundtrip
      { text := "T", id := "ab", keyboard_id := some "cd", kind := .showList }
      "cd" (by decide) (by decide)).2.2.1 rfl).2
  · exact ((c9_callback_payload_roundtrip
      { text := "T", id := "ef", keyboard_id := none, kind := .showList }
      "cd" (by decide) (by decide)).2.2.2 rfl).1

end Ate
